import Mathlib

/-!
# Verification of the PLS-SB regression module

This file gives a shallow embedding, over exact rational arithmetic, of the
PLS-SB regression class (`src/regressions/pls_sb.py`): the fitting procedure
in `PLS_SB.__init__`, the direct predictor `PLS_SB.prediction` and the
iterative predictor `PLS_SB.prediction_iterative`.

The dense linear-algebra library the source calls into (`linalg.eigh`,
`np.linalg.norm`, `linalg.inv`) is an external collaborator of the module, so
its outputs are modelled as explicit inputs to the fitting function, and the
contracts those outputs satisfy (ascending eigenvalues, orthonormal
eigenvectors, correct column norms, correct inverse) are stated as separate
predicates that theorems take as hypotheses where they are needed.

Matrices are `Matrix (Fin r) (Fin c) ℚ`; the dynamic 1-D/2-D shape dispatch
of numpy arrays is modelled by the inductive `NDArr` carrying explicit
shapes, and `ParameterError` by an explicit error type in `Except`.
-/

namespace PLS_SB

open Matrix

abbrev Mtx (r c : ℕ) := Matrix (Fin r) (Fin c) ℚ

/-- Failure type: models the `ParameterError` exception of the source. -/
inductive RegError where
  | paramError : String → RegError
  deriving DecidableEq

/-- A numpy array of rationals: either 1-dimensional or 2-dimensional,
carrying its shape explicitly (as numpy shapes do, even for 0 rows). -/
inductive NDArr where
  | one : (n : ℕ) → (Fin n → ℚ) → NDArr
  | two : (r c : ℕ) → Mtx r c → NDArr

/-- `X.mean(0)`: column-wise mean of a matrix. -/
def colMean {N p : ℕ} (X : Mtx N p) : Fin p → ℚ :=
  fun j => (∑ i, X i j) / (N : ℚ)

/-- `X - X.mean(0)`: the centred version of a matrix (fresh value; the
source allocates a new array here, see the store model below). -/
def centred {N p : ℕ} (X : Mtx N p) : Mtx N p :=
  fun i j => X i j - colMean X j

/-- `XtY = Xc.T @ Yc`: centred cross-product matrix. -/
def sMat {N p m : ℕ} (X : Mtx N p) (Y : Mtx N m) : Mtx p m :=
  (centred X)ᵀ * centred Y

/-- `XtY @ XtY.T`: the symmetric matrix handed to `linalg.eigh`. -/
def mMat {N p m : ℕ} (X : Mtx N p) (Y : Mtx N m) : Mtx p p :=
  sMat X Y * (sMat X Y)ᵀ

/-- `W[:, :-g-1:-1]`: the last `g` columns of the eigenvector matrix in
reverse order, i.e. column `j` of the result is column `p - 1 - j` of the
eigensolver output (the eigensolver returns eigenvalues ascending, so these
are the `g` largest, in descending order). -/
def wSel {p : ℕ} (Weigh : Mtx p p) (g : ℕ) : Mtx p g :=
  fun i j => Weigh i ⟨p - 1 - j.val, by have h := i.isLt; omega⟩

/-- `self.T = Xc @ self.W`: X latent scores. -/
def tMat {N p : ℕ} (X : Mtx N p) (Weigh : Mtx p p) (g : ℕ) : Mtx N g :=
  centred X * wSel Weigh g

/-- `Yc.T @ self.T`: the Y loadings before column normalisation. -/
def q0Mat {N p m : ℕ} (X : Mtx N p) (Y : Mtx N m) (Weigh : Mtx p p) (g : ℕ) :
    Mtx m g :=
  (centred Y)ᵀ * tMat X Weigh g

/-- `self.Q /= np.linalg.norm(self.Q, axis=0)`: each column divided by its
Euclidean norm; the norm values are an output of the external linear-algebra
layer and are passed in as `qn`. -/
def qMat {N p m : ℕ} (X : Mtx N p) (Y : Mtx N m) (Weigh : Mtx p p) (g : ℕ)
    (qn : Fin g → ℚ) : Mtx m g :=
  fun i j => q0Mat X Y Weigh g i j / qn j

/-- `self.U = Yc @ self.Q`: Y latent scores. -/
def uMat {N p m : ℕ} (X : Mtx N p) (Y : Mtx N m) (Weigh : Mtx p p) (g : ℕ)
    (qn : Fin g → ℚ) : Mtx N g :=
  centred Y * qMat X Y Weigh g qn

/-- `t_dot_t = (self.T.T @ self.T).diagonal()`. -/
def tdott {N p : ℕ} (X : Mtx N p) (Weigh : Mtx p p) (g : ℕ) : Fin g → ℚ :=
  fun j => ((tMat X Weigh g)ᵀ * tMat X Weigh g) j j

/-- Diagonal of `self.C`: `(self.T.T @ self.U).diagonal() / t_dot_t`. -/
def cDiag {N p m : ℕ} (X : Mtx N p) (Y : Mtx N m) (Weigh : Mtx p p) (g : ℕ)
    (qn : Fin g → ℚ) : Fin g → ℚ :=
  fun j =>
    ((tMat X Weigh g)ᵀ * uMat X Y Weigh g qn) j j / tdott X Weigh g j

/-- `self.C = np.diag(...)`: per-component regression scales. -/
def cMat {N p m : ℕ} (X : Mtx N p) (Y : Mtx N m) (Weigh : Mtx p p) (g : ℕ)
    (qn : Fin g → ℚ) : Mtx g g :=
  Matrix.diagonal (cDiag X Y Weigh g qn)

/-- `self.P = (Xc.T @ self.T) / t_dot_t`: X loadings (numpy broadcasting
divides column `j` by `t_dot_t[j]`). -/
def pMat {N p : ℕ} (X : Mtx N p) (Weigh : Mtx p p) (g : ℕ) : Mtx p g :=
  fun i j => ((centred X)ᵀ * tMat X Weigh g) i j / tdott X Weigh g j

/-- `self.B = self.W @ linalg.inv(self.P.T @ self.W) @ self.C @ self.Q.T`;
`PWinv` is the output of the external `linalg.inv` applied to `P.T @ W`. -/
def bMat {N p m : ℕ} (X : Mtx N p) (Y : Mtx N m) (Weigh : Mtx p p) (g : ℕ)
    (qn : Fin g → ℚ) (PWinv : Mtx g g) : Mtx p m :=
  wSel Weigh g * PWinv * cMat X Y Weigh g qn * (qMat X Y Weigh g qn)ᵀ

/-- The fitted model: the attributes `PLS_SB.__init__` stores on `self`. -/
structure PLSModel (N p m g : ℕ) where
  X_offset : Fin p → ℚ
  Y_offset : Fin m → ℚ
  W : Mtx p g
  T : Mtx N g
  Q : Mtx m g
  U : Mtx N g
  C : Mtx g g
  P : Mtx p g
  B : Mtx p m

/-- The numeric body of `PLS_SB.__init__` (after the parameter checks have
passed), assembling the fitted model from the calibration data and the
outputs of the external linear-algebra layer (`Weigh` from `linalg.eigh`,
`qn` from `np.linalg.norm`, `PWinv` from `linalg.inv`). -/
def fitFrom {N p m : ℕ} (X : Mtx N p) (Y : Mtx N m) (g : ℕ)
    (Weigh : Mtx p p) (qn : Fin g → ℚ) (PWinv : Mtx g g) : PLSModel N p m g where
  X_offset := colMean X
  Y_offset := colMean Y
  W := wSel Weigh g
  T := tMat X Weigh g
  Q := qMat X Y Weigh g qn
  U := uMat X Y Weigh g qn
  C := cMat X Y Weigh g qn
  P := pMat X Weigh g
  B := bMat X Y Weigh g qn PWinv

/-- Error message of the row-count check in `PLS_SB.__init__`. -/
def rowMismatchMsg : String :=
  "X and Y data must have the same number of rows (data samples)"

/-- Error message of the component-count check in `PLS_SB.__init__`. -/
def badComponentsMsg : String :=
  "Number of required components specified is impossible."

/-- Error message of the shape checks in both prediction methods (the
double space is present in the source string). -/
def shapeMismatchMsg : String :=
  "Data provided does not have the  same number of variables as the original X data"

/-- `PLS_SB.__init__` in full: the parameter checks in source order (row
count first, then the component-count bounds with
`max_rank = min(X.shape)`), then the numeric fit.  The requested component
count `g` is an arbitrary integer, as in the source. -/
def fit {N1 p N2 m : ℕ} (X : Mtx N1 p) (Y : Mtx N2 m) (g : ℤ)
    (Weigh : Mtx p p) (qn : ℕ → ℚ)
    (PWinvF : (k : ℕ) → Matrix (Fin k) (Fin k) ℚ) :
    Except RegError ((g' : ℕ) × PLSModel N1 p m g') :=
  if hN : N1 = N2 then
    if g < 1 ∨ ((min N1 p : ℕ) : ℤ) < g then
      .error (.paramError badComponentsMsg)
    else
      .ok ⟨g.toNat,
        fitFrom X (fun i j => Y (Fin.cast hN i) j) g.toNat
          (Weigh) (fun j => qn j.val) (PWinvF g.toNat)⟩
  else .error (.paramError rowMismatchMsg)

/-- `True` on a successful result. -/
def exOk {α : Type} : Except RegError α → Bool
  | .ok _ => true
  | .error _ => false

/-- Single-row branch of `PLS_SB.prediction`:
`self.Y_offset + (Z - self.X_offset).T @ self.B`. -/
def predRow {N p m g : ℕ} (M : PLSModel N p m g) (z : Fin p → ℚ) :
    Fin m → ℚ :=
  fun i => M.Y_offset i + Matrix.vecMul (fun j => z j - M.X_offset j) M.B i

/-- Batch branch of `PLS_SB.prediction`: row `r` of the result is
`self.Y_offset + (Z[r, :] - self.X_offset).T @ self.B`. -/
def predBatch {N p m g k : ℕ} (M : PLSModel N p m g) (Z : Mtx k p) :
    Mtx k m :=
  fun r i => M.Y_offset i + Matrix.vecMul (fun j => Z r j - M.X_offset j) M.B i

/-- One pass of the deflation loop in `PLS_SB.prediction_iterative`: from
the current residual `st.1` and score buffer `st.2`, compute
`t[j] = x_j @ W[:, j]` and deflate `x_j = x_j - t[j] * P[:, j]`. -/
def iterStep {N p m g : ℕ} (M : PLSModel N p m g)
    (st : (Fin p → ℚ) × (Fin g → ℚ)) (j : Fin g) :
    (Fin p → ℚ) × (Fin g → ℚ) :=
  let tj := ∑ i, st.1 i * M.W i j
  (fun i => st.1 i - tj * M.P i j, Function.update st.2 j tj)

/-- The first `k` passes of `for j in range(0, self.components)` in
`PLS_SB.prediction_iterative`, starting from the residual
`x_j = z - self.X_offset` and a zero score buffer (the buffer starts as
`np.empty`; every entry is written before it is read). -/
def iterRun {N p m g : ℕ} (M : PLSModel N p m g) (z : Fin p → ℚ) :
    ℕ → (Fin p → ℚ) × (Fin g → ℚ)
  | 0 => (fun j => z j - M.X_offset j, fun _ => 0)
  | k + 1 =>
      if h : k < g then iterStep M (iterRun M z k) ⟨k, h⟩ else iterRun M z k

/-- The score vector `t` extracted by the full deflation loop of
`PLS_SB.prediction_iterative`. -/
def iterScores {N p m g : ℕ} (M : PLSModel N p m g) (z : Fin p → ℚ) :
    Fin g → ℚ :=
  (iterRun M z g).2

/-- Single-row branch of `PLS_SB.prediction_iterative`:
`self.Y_offset + t @ self.C @ self.Q.T` after the deflation loop. -/
def predIterRow {N p m g : ℕ} (M : PLSModel N p m g) (z : Fin p → ℚ) :
    Fin m → ℚ :=
  fun i => M.Y_offset i + Matrix.vecMul (iterScores M z) (M.C * M.Qᵀ) i

/-- Batch branch of `PLS_SB.prediction_iterative`: the same deflation loop
run on each row in order. -/
def predIterBatch {N p m g k : ℕ} (M : PLSModel N p m g) (Z : Mtx k p) :
    Mtx k m :=
  fun r i =>
    M.Y_offset i + Matrix.vecMul (iterScores M (fun j => Z r j)) (M.C * M.Qᵀ) i

/-- `PLS_SB.prediction`: dispatch on the dimensionality of `Z`, check the
variable count against `self.X_variables` (= `p`), then apply the direct
linear map. -/
def prediction {N p m g : ℕ} (M : PLSModel N p m g) :
    NDArr → Except RegError NDArr
  | .one n z =>
      if h : n = p then
        .ok (.one m (predRow M (fun j => z (Fin.cast h.symm j))))
      else .error (.paramError shapeMismatchMsg)
  | .two r c Z =>
      if h : c = p then
        .ok (.two r m (predBatch M (fun i j => Z i (Fin.cast h.symm j))))
      else .error (.paramError shapeMismatchMsg)

/-- `PLS_SB.prediction_iterative`: same dispatch and shape check, then the
deflation loop. -/
def prediction_iterative {N p m g : ℕ} (M : PLSModel N p m g) :
    NDArr → Except RegError NDArr
  | .one n z =>
      if h : n = p then
        .ok (.one m (predIterRow M (fun j => z (Fin.cast h.symm j))))
      else .error (.paramError shapeMismatchMsg)
  | .two r c Z =>
      if h : c = p then
        .ok (.two r m (predIterBatch M (fun i j => Z i (Fin.cast h.symm j))))
      else .error (.paramError shapeMismatchMsg)

/-- Contract of the external linear-algebra layer for one fitting call:
`Weigh` is a genuine orthonormal eigendecomposition of `S·Sᵀ` with
eigenvalues `ev` in ascending order (the `linalg.eigh` contract), `qn` are
the (nonzero) Euclidean norms of the columns of `Yc.T @ T`, `PWinv` is a
two-sided inverse of `P.T @ W`, and the score normalisers `t_dot_t` are
nonzero (non-degenerate data, spec section 7). -/
def FitOracleOK {N p m : ℕ} (X : Mtx N p) (Y : Mtx N m) (g : ℕ)
    (ev : Fin p → ℚ) (Weigh : Mtx p p) (qn : Fin g → ℚ)
    (PWinv : Mtx g g) : Prop :=
  (∀ j i : Fin p, (mMat X Y).mulVec (fun k => Weigh k j) i = ev j * Weigh i j)
  ∧ (∀ i j : Fin p, i ≤ j → ev i ≤ ev j)
  ∧ (∀ j1 j2 : Fin p,
      (∑ i, Weigh i j1 * Weigh i j2) = if j1 = j2 then 1 else 0)
  ∧ (∀ j : Fin g, qn j ≠ 0 ∧
      qn j * qn j = ∑ i, q0Mat X Y Weigh g i j * q0Mat X Y Weigh g i j)
  ∧ (∀ i j : Fin g,
      (((pMat X Weigh g)ᵀ * wSel Weigh g) * PWinv) i j = if i = j then 1 else 0)
  ∧ (∀ i j : Fin g,
      (PWinv * ((pMat X Weigh g)ᵀ * wSel Weigh g)) i j = if i = j then 1 else 0)
  ∧ (∀ j : Fin g, tdott X Weigh g j ≠ 0)

/-! ### Store model

The fitting procedure of the source works on heap-allocated numpy arrays;
to state that it never writes into the caller's `X` and `Y`, the array
operations are replayed against an explicit store.  Every numpy expression
in `PLS_SB.__init__` allocates a fresh array except `self.Q /= ...`, which
updates the array allocated for `Yc.T @ self.T` in place. -/

/-- A stored array value (1-D or 2-D). -/
inductive Arr where
  | vecA : (n : ℕ) → (Fin n → ℚ) → Arr
  | matA : (r c : ℕ) → Mtx r c → Arr

/-- A heap of arrays: addresses below `next` are allocated. -/
structure Store where
  next : ℕ
  mem : ℕ → Arr

/-- Allocate a fresh array, returning its address. -/
def Store.alloc (s : Store) (v : Arr) : ℕ × Store :=
  (s.next, ⟨s.next + 1, fun a => if a = s.next then v else s.mem a⟩)

/-- Overwrite the array at an existing address (in-place update). -/
def Store.write (s : Store) (addr : ℕ) (v : Arr) : Store :=
  ⟨s.next, fun a => if a = addr then v else s.mem a⟩

/-- Allocate a sequence of fresh arrays, in order. -/
def Store.allocMany (s : Store) (vs : List Arr) : Store :=
  vs.foldl (fun t v => (t.alloc v).2) s

/-- `PLS_SB.__init__` replayed against the store, after the two
calibration arrays have been read: performs the parameter checks, then
allocates one fresh array per numpy expression of the source body, in
source order; the single in-place update is
`self.Q /= np.linalg.norm(self.Q, axis=0)`, at the address just allocated
for `Yc.T @ self.T`.  The error branches touch the store not at all. -/
def fitTraceCore (s : Store) {N1 p N2 m : ℕ} (X : Mtx N1 p) (Y : Mtx N2 m)
    (g : ℤ) (WeighF : (k : ℕ) → Matrix (Fin k) (Fin k) ℚ) (qnF : ℕ → ℚ)
    (invF : (k : ℕ) → Matrix (Fin k) (Fin k) ℚ) :
    Store × Except RegError Unit :=
  if hN : N1 = N2 then
    if g < 1 ∨ ((min N1 p : ℕ) : ℤ) < g then
      (s, .error (.paramError badComponentsMsg))
    else
      let Y2 : Mtx N1 m := fun i j => Y (Fin.cast hN i) j
      let g2 := g.toNat
      let qn : Fin g2 → ℚ := fun j => qnF j.val
      let s9 := s.allocMany
        [.vecA p (colMean X), .matA N1 p (centred X),
         .vecA m (colMean Y2), .matA N1 m (centred Y2),
         .matA p m (sMat X Y2), .matA p p (mMat X Y2),
         .matA p p (WeighF p), .matA p g2 (wSel (WeighF p) g2),
         .matA N1 g2 (tMat X (WeighF p) g2)]
      let aQ := s9.next
      let s10 := (s9.alloc (.matA m g2 (q0Mat X Y2 (WeighF p) g2))).2
      let s11 := s10.write aQ (.matA m g2 (qMat X Y2 (WeighF p) g2 qn))
      let s15 := s11.allocMany
        [.matA N1 g2 (uMat X Y2 (WeighF p) g2 qn),
         .matA g2 g2 (cMat X Y2 (WeighF p) g2 qn),
         .matA p g2 (pMat X (WeighF p) g2),
         .matA p m (bMat X Y2 (WeighF p) g2 qn (invF g2))]
      (s15, .ok ())
  else (s, .error (.paramError rowMismatchMsg))

/-- Dispatch of `fitTrace` on the two stored arrays: anything other than a
pair of 2-D arrays is outside the source's domain and is mapped to an
error without touching the store. -/
def fitTrace (s : Store) (aX aY : ℕ) (g : ℤ)
    (WeighF : (k : ℕ) → Matrix (Fin k) (Fin k) ℚ) (qnF : ℕ → ℚ)
    (invF : (k : ℕ) → Matrix (Fin k) (Fin k) ℚ) :
    Store × Except RegError Unit :=
  match s.mem aX, s.mem aY with
  | .matA _ _ X, .matA _ _ Y => fitTraceCore s X Y g WeighF qnF invF
  | _, _ => (s, .error (.paramError rowMismatchMsg))

/-! ### A concrete validly fitted model

Calibration data with exact rational eigenstructure: the columns of
`Weigh0` are orthonormal eigenvectors of `S·Sᵀ` for `S = Xc.T @ Yc`, with
eigenvalues `ev0 = (1, 4)` in ascending order; the column norms of
`Yc.T @ T` are `2` and `1`; `PWinv0` is the exact inverse of `P.T @ W`.
Every fact is checked by `decide` in the theorems below. -/

/-- Calibration inputs: 3 samples, 2 X-variables (already centred). -/
def X0 : Mtx 3 2 := !![1, 0; 0, 1; -1, -1]

/-- Calibration outputs: 3 samples, 2 Y-variables (already centred). -/
def Y0 : Mtx 3 2 := !![2/15, -22/15; 1/3, 4/3; -7/15, 2/15]

/-- Eigenvector matrix returned by the eigensolver (orthonormal, ascending
eigenvalue order). -/
def Weigh0 : Mtx 2 2 := !![3/5, -4/5; 4/5, 3/5]

/-- Eigenvalues of `S·Sᵀ` for `X0`, `Y0`, ascending. -/
def ev0 : Fin 2 → ℚ := ![1, 4]

/-- Euclidean norms of the columns of `Yc.T @ T` for this data. -/
def qn0 : Fin 2 → ℚ := ![2, 1]

/-- Exact inverse of `P.T @ W` for this data. -/
def PWinv0 : Mtx 2 2 := !![1924/1875, 518/1875; 182/1875, 1924/1875]

/-- A prediction input row (the first calibration row, so in-sample). -/
def z0 : Fin 2 → ℚ := ![1, 0]

/-- The model fitted from `X0`, `Y0` with `g = 2`. -/
def M0 : PLSModel 3 2 2 2 := fitFrom X0 Y0 2 Weigh0 qn0 PWinv0

/-- A second small calibration pair with mismatched row counts, for the
witnesses of the error-handling claims. -/
def X1 : Mtx 2 1 := !![3; 5]

/-- 3-row Y against the 2-row `X1`. -/
def Y1 : Mtx 3 1 := !![1; 2; 4]

/-- 2-row Y matching `X1`. -/
def Y2m : Mtx 2 1 := !![1; 2]

/-- Trivial norm oracle for witnesses. -/
def qnTriv : ℕ → ℚ := fun _ => 1

/-- Trivial inverse-oracle family for witnesses. -/
def invTriv : (k : ℕ) → Matrix (Fin k) (Fin k) ℚ := fun _ => 1

/-- Trivial eigensolver-output family for witnesses. -/
def weighTriv : (k : ℕ) → Matrix (Fin k) (Fin k) ℚ := fun _ => 1

/-- A concrete two-array store for the frame-property witness: `X0` at
address 0 and `Y0` at address 1. -/
def store0 : Store :=
  ⟨2, fun a => if a = 0 then .matA 3 2 X0 else
      if a = 1 then .matA 3 2 Y0 else .vecA 0 (fun _ => 0)⟩

/-- The eigensolver-output column selected for model component `j` by the
slice `W[:, :-g-1:-1]`: column `p - 1 - j`. -/
def selIdx (p : ℕ) {g : ℕ} (j : Fin g) (h : g ≤ p) : Fin p :=
  ⟨p - 1 - j.val, by have hj := j.isLt; omega⟩

/-! ### Theorems

`Rat.add`, `Rat.sub`, `Rat.mul` and `Rat.inv` are irreducible in Batteries
purely as an elaboration-performance guard; concrete evaluation by `decide`
needs them unfolded. -/

attribute [local semireducible] Rat.add Rat.inv Rat.mul Rat.sub

instance instDecFitOracleOK {N p m : ℕ} (X : Mtx N p) (Y : Mtx N m) (g : ℕ)
    (ev : Fin p → ℚ) (Weigh : Mtx p p) (qn : Fin g → ℚ) (PWinv : Mtx g g) :
    Decidable (FitOracleOK X Y g ev Weigh qn PWinv) := by
  unfold FitOracleOK
  infer_instance

/-- C1: the claim says `prediction` and `prediction_iterative` agree on
every validly fitted model (exact equality in exact arithmetic).  The code
violates this, contradicting the docstring of `prediction_iterative`
itself: on the validly fitted model `M0` (the external-solver outputs
satisfy their full contract, `FitOracleOK`) and the in-sample row
`z0 = (1, 0)`, `prediction` returns `(2/15, -22/15)` while
`prediction_iterative` returns `(125/962, -20/13)` — a relative error of
about 5 percent, far beyond any floating-point tolerance. -/
theorem C1_prediction_paths_disagree :
    FitOracleOK X0 Y0 2 ev0 Weigh0 qn0 PWinv0 ∧
    prediction M0 (.one 2 z0) = .ok (.one 2 (predRow M0 z0)) ∧
    prediction_iterative M0 (.one 2 z0) = .ok (.one 2 (predIterRow M0 z0)) ∧
    predRow M0 z0 = ![2/15, -22/15] ∧
    predIterRow M0 z0 = ![125/962, -20/13] ∧
    predRow M0 z0 ≠ predIterRow M0 z0 := by
  refine ⟨by decide, rfl, rfl, by decide, by decide, by decide⟩

/-- C2: fitting with `X` and `Y` of different row counts always fails with
the row-mismatch `ParameterError`, whatever `g` and whatever the external
linear-algebra layer would return (so the eigendecomposition is never
consulted). -/
theorem C2_row_mismatch {N1 p N2 m : ℕ} (X : Mtx N1 p) (Y : Mtx N2 m)
    (g : ℤ) (Weigh : Mtx p p) (qn : ℕ → ℚ)
    (PWinvF : (k : ℕ) → Matrix (Fin k) (Fin k) ℚ) (h : N1 ≠ N2) :
    fit X Y g Weigh qn PWinvF = .error (.paramError rowMismatchMsg) := by
  unfold fit
  rw [dif_neg h]

/-- Witness for C2 at the concrete pair `X1` (2 rows) and `Y1` (3 rows). -/
theorem C2_row_mismatch_witness :
    fit X1 Y1 1 (weighTriv 1) qnTriv invTriv
      = .error (.paramError rowMismatchMsg) :=
  C2_row_mismatch X1 Y1 1 (weighTriv 1) qnTriv invTriv (by decide)

/-- C3: with matching row counts and `max_rank = min(N, p)`, fitting fails
with the component-count `ParameterError` for every `g < 1` or
`g > max_rank`, whatever the external linear-algebra layer would return;
and fitting with `g = max_rank` passes the parameter checks and succeeds,
provided `max_rank ≥ 1` (for empty calibration data `max_rank = 0` and the
`g < 1` branch fires instead, see the counterexample). -/
theorem C3_component_bounds {N p m : ℕ} (X : Mtx N p) (Y : Mtx N m)
    (Weigh : Mtx p p) (qn : ℕ → ℚ)
    (PWinvF : (k : ℕ) → Matrix (Fin k) (Fin k) ℚ) :
    (∀ g : ℤ, g < 1 ∨ ((min N p : ℕ) : ℤ) < g →
      fit X Y g Weigh qn PWinvF = .error (.paramError badComponentsMsg)) ∧
    (1 ≤ min N p →
      exOk (fit X Y ((min N p : ℕ) : ℤ) Weigh qn PWinvF) = true) := by
  constructor
  · intro g hg
    unfold fit
    rw [dif_pos rfl, if_pos hg]
  · intro h
    unfold fit
    rw [dif_pos rfl, if_neg]
    · rfl
    · push_neg
      constructor
      · exact_mod_cast h
      · exact le_refl _

/-- C4: given the eigensolver contract — `ev` ascending with eigenvector
columns `Weigh` of `S·Sᵀ` — the fitted `W` has, as its column `j`, the
eigensolver column `p - 1 - j`; each such column is an eigenvector of
`S·Sᵀ` with eigenvalue `ev (p - 1 - j)`; these eigenvalues are descending
across the component index (component `0` has the largest); and they are
the `g` largest: every unselected eigenvalue is bounded by every selected
one. -/
theorem C4_W_top_eigenvectors_descending {N p m g : ℕ} (X : Mtx N p)
    (Y : Mtx N m) (Weigh : Mtx p p) (ev : Fin p → ℚ) (qn : Fin g → ℚ)
    (PWinv : Mtx g g) (hgp : g ≤ p)
    (hasc : ∀ i j : Fin p, i ≤ j → ev i ≤ ev j)
    (heig : ∀ j i : Fin p,
      (mMat X Y).mulVec (fun k => Weigh k j) i = ev j * Weigh i j) :
    ∀ j : Fin g,
      (∀ i : Fin p,
        (fitFrom X Y g Weigh qn PWinv).W i j = Weigh i (selIdx p j hgp)) ∧
      (∀ i : Fin p,
        (mMat X Y).mulVec (fun k => (fitFrom X Y g Weigh qn PWinv).W k j) i
          = ev (selIdx p j hgp) * (fitFrom X Y g Weigh qn PWinv).W i j) ∧
      (∀ j2 : Fin g, j ≤ j2 →
        ev (selIdx p j2 hgp) ≤ ev (selIdx p j hgp)) ∧
      (∀ i : Fin p, i.val < p - g → ev i ≤ ev (selIdx p j hgp)) := by
  intro j
  refine ⟨fun i => rfl, fun i => heig (selIdx p j hgp) i, ?_, ?_⟩
  · intro j2 hj
    apply hasc
    rw [Fin.le_def] at hj ⊢
    simp only [selIdx]
    omega
  · intro i hi
    apply hasc
    rw [Fin.le_def]
    simp only [selIdx]
    have hj := j.isLt
    omega

/-- Witness for C4 on the concrete fitted model `M0`: component `0` is an
eigenvector with eigenvalue `ev0 (selIdx 2 0) = 4`, and component `1` has
the smaller eigenvalue. -/
theorem C4_W_top_eigenvectors_descending_witness :
    (mMat X0 Y0).mulVec (fun k => M0.W k 0) 0
      = ev0 (selIdx 2 (0 : Fin 2) (by omega)) * M0.W 0 0 ∧
    ev0 (selIdx 2 (1 : Fin 2) (by omega)) ≤ ev0 (selIdx 2 (0 : Fin 2) (by omega)) := by
  constructor
  · exact ((C4_W_top_eigenvectors_descending X0 Y0 Weigh0 ev0 qn0 PWinv0
      (by omega) (by decide) (by decide)) 0).2.1 0
  · exact ((C4_W_top_eigenvectors_descending X0 Y0 Weigh0 ev0 qn0 PWinv0
      (by omega) (by decide) (by decide)) 0).2.2.1 1 (by decide)

/-- C5: whenever the column norms `qn` handed back by the linear-algebra
layer are correct (their square is the sum of squares of the corresponding
column of `Yc.T @ T`) and nonzero, every column of the fitted `Q` has
Euclidean norm 1, stated in square-free form: the sum of squares of each
column is exactly 1. -/
theorem C5_Q_columns_unit_norm {N p m g : ℕ} (X : Mtx N p) (Y : Mtx N m)
    (Weigh : Mtx p p) (qn : Fin g → ℚ) (PWinv : Mtx g g)
    (hq : ∀ j : Fin g, qn j ≠ 0 ∧
      qn j * qn j = ∑ i, q0Mat X Y Weigh g i j * q0Mat X Y Weigh g i j) :
    ∀ j : Fin g,
      (∑ i, (fitFrom X Y g Weigh qn PWinv).Q i j
          * (fitFrom X Y g Weigh qn PWinv).Q i j) = 1 := by
  intro j
  show (∑ i, q0Mat X Y Weigh g i j / qn j * (q0Mat X Y Weigh g i j / qn j)) = 1
  simp only [div_mul_div_comm]
  rw [← Finset.sum_div, ← (hq j).2,
    div_self (mul_ne_zero (hq j).1 (hq j).1)]

/-- Witness for C5 on the concrete fitted model `M0`. -/
theorem C5_Q_columns_unit_norm_witness :
    (∑ i, M0.Q i 0 * M0.Q i 0) = 1 :=
  C5_Q_columns_unit_norm X0 Y0 Weigh0 qn0 PWinv0 (by decide) 0

/-- C6: on a single row `z` of length `p`, `prediction` returns exactly
`Y_offset + (z - X_offset)ᵀ · B` (a single row of length `m`); on a batch
of `k` rows of width `p` it returns the `k × m` matrix whose row `r` is
that same affine map applied to row `r` of the input, preserving row
order. -/
theorem C6_prediction_affine_map {N p m g k : ℕ} (M : PLSModel N p m g)
    (z : Fin p → ℚ) (Z : Mtx k p) :
    prediction M (.one p z)
      = .ok (.one m (fun i =>
          M.Y_offset i + ∑ j, (z j - M.X_offset j) * M.B j i)) ∧
    prediction M (.two k p Z)
      = .ok (.two k m (fun r i =>
          M.Y_offset i + ∑ j, (Z r j - M.X_offset j) * M.B j i)) := by
  constructor
  · simp only [prediction]
    rw [dif_pos trivial]
    rfl
  · simp only [prediction]
    rw [dif_pos trivial]
    rfl

/-- C7: on a single row whose length differs from `p`, or a batch whose
row width differs from `p`, both `prediction` and `prediction_iterative`
fail with the shape-mismatch `ParameterError` naming the expected variable
count, and return no prediction values. -/
theorem C7_shape_mismatch_error {N p m g : ℕ} (M : PLSModel N p m g) :
    (∀ (n : ℕ) (z : Fin n → ℚ), n ≠ p →
      prediction M (.one n z) = .error (.paramError shapeMismatchMsg) ∧
      prediction_iterative M (.one n z)
        = .error (.paramError shapeMismatchMsg)) ∧
    (∀ (r c : ℕ) (Z : Mtx r c), c ≠ p →
      prediction M (.two r c Z) = .error (.paramError shapeMismatchMsg) ∧
      prediction_iterative M (.two r c Z)
        = .error (.paramError shapeMismatchMsg)) := by
  constructor
  · intro n z h
    constructor
    · simp only [prediction]
      rw [dif_neg h]
    · simp only [prediction_iterative]
      rw [dif_neg h]
  · intro r c Z h
    constructor
    · simp only [prediction]
      rw [dif_neg h]
    · simp only [prediction_iterative]
      rw [dif_neg h]

/-- Witness for C7: the fitted model `M0` has `p = 2` X-variables; inputs
of width 3 are rejected by both predictors, in both 1-D and 2-D form. -/
theorem C7_shape_mismatch_error_witness :
    prediction M0 (.one 3 (fun _ => 0))
        = .error (.paramError shapeMismatchMsg) ∧
    prediction_iterative M0 (.one 3 (fun _ => 0))
        = .error (.paramError shapeMismatchMsg) ∧
    prediction M0 (.two 1 3 0) = .error (.paramError shapeMismatchMsg) ∧
    prediction_iterative M0 (.two 1 3 0)
        = .error (.paramError shapeMismatchMsg) := by
  refine ⟨((C7_shape_mismatch_error M0).1 3 (fun _ => 0) (by decide)).1,
    ((C7_shape_mismatch_error M0).1 3 (fun _ => 0) (by decide)).2,
    ((C7_shape_mismatch_error M0).2 1 3 0 (by decide)).1,
    ((C7_shape_mismatch_error M0).2 1 3 0 (by decide)).2⟩

/-- C8: on a batch `Z` of `k` rows of width `p`, row `i` of the batch
result of `prediction` equals the single-row result of `prediction` on row
`i` of `Z`, and likewise for `prediction_iterative`. -/
theorem C8_batch_row_consistency {N p m g k : ℕ} (M : PLSModel N p m g)
    (Z : Mtx k p) (i : Fin k) :
    prediction M (.two k p Z) = .ok (.two k m (predBatch M Z)) ∧
    prediction M (.one p (fun j => Z i j))
      = .ok (.one m (predRow M (fun j => Z i j))) ∧
    predBatch M Z i = predRow M (fun j => Z i j) ∧
    prediction_iterative M (.two k p Z)
      = .ok (.two k m (predIterBatch M Z)) ∧
    prediction_iterative M (.one p (fun j => Z i j))
      = .ok (.one m (predIterRow M (fun j => Z i j))) ∧
    predIterBatch M Z i = predIterRow M (fun j => Z i j) := by
  refine ⟨?_, ?_, rfl, ?_, ?_, rfl⟩
  · simp only [prediction]
    rw [dif_pos trivial]
    rfl
  · simp only [prediction]
    rw [dif_pos trivial]
    rfl
  · simp only [prediction_iterative]
    rw [dif_pos trivial]
    rfl
  · simp only [prediction_iterative]
    rw [dif_pos trivial]
    rfl

/-- C10: on a two-dimensional batch with zero rows and `p` columns, both
predictors succeed and return the (unique) empty result of shape
`0 × m`. -/
theorem C10_empty_batch_ok {N p m g : ℕ} (M : PLSModel N p m g)
    (Z : Mtx 0 p) :
    prediction M (.two 0 p Z) = .ok (.two 0 m (fun i _ => Fin.elim0 i)) ∧
    prediction_iterative M (.two 0 p Z)
      = .ok (.two 0 m (fun i _ => Fin.elim0 i)) := by
  constructor
  · simp only [prediction]
    rw [dif_pos trivial]
    congr 1
    exact congrArg (NDArr.two 0 m) (funext fun i => i.elim0)
  · simp only [prediction_iterative]
    rw [dif_pos trivial]
    congr 1
    exact congrArg (NDArr.two 0 m) (funext fun i => i.elim0)

theorem Store.mem_alloc_of_lt (s : Store) (v : Arr) (a : ℕ)
    (ha : a < s.next) : ((s.alloc v).2).mem a = s.mem a := by
  simp only [Store.alloc]
  exact if_neg (by omega)

theorem Store.lt_next_alloc (s : Store) (v : Arr) (a : ℕ)
    (ha : a < s.next) : a < ((s.alloc v).2).next := by
  simp only [Store.alloc]
  omega

theorem Store.mem_allocMany_of_lt (vs : List Arr) (s : Store) (a : ℕ)
    (ha : a < s.next) :
    (s.allocMany vs).mem a = s.mem a ∧ a < (s.allocMany vs).next := by
  induction vs generalizing s with
  | nil => exact ⟨rfl, ha⟩
  | cons v vs ih =>
    have h := ih ((s.alloc v).2) (Store.lt_next_alloc s v a ha)
    exact ⟨h.1.trans (Store.mem_alloc_of_lt s v a ha), h.2⟩

theorem Store.mem_write_of_ne (s : Store) (addr : ℕ) (v : Arr) (a : ℕ)
    (h : a ≠ addr) : (s.write addr v).mem a = s.mem a := by
  simp only [Store.write]
  exact if_neg h

/-- The allocation pattern of the successful fit: a block of fresh
allocations, the `Q` allocation, the in-place normalisation of `Q`, and a
final block of fresh allocations; no address already allocated before the
call is written. -/
theorem mem_fitChain (s : Store) (L1 : List Arr) (q0v qv : Arr)
    (L2 : List Arr) (a : ℕ) (ha : a < s.next) :
    (((((s.allocMany L1).alloc q0v).2).write (s.allocMany L1).next qv).allocMany
        L2).mem a = s.mem a := by
  have h1 := Store.mem_allocMany_of_lt L1 s a ha
  have h2 : a < (((s.allocMany L1).alloc q0v).2).next :=
    Store.lt_next_alloc _ q0v a h1.2
  have h3 :
      ((((s.allocMany L1).alloc q0v).2).write (s.allocMany L1).next qv).next
        = (((s.allocMany L1).alloc q0v).2).next := rfl
  have h4 := Store.mem_allocMany_of_lt L2
    ((((s.allocMany L1).alloc q0v).2).write (s.allocMany L1).next qv) a
    (by rw [h3]; exact h2)
  rw [h4.1, Store.mem_write_of_ne _ _ _ _ (by omega),
    Store.mem_alloc_of_lt _ _ _ h1.2, h1.1]

/-- Inner case of C9: once the two calibration arrays have been read, the
fit — successful or failed on either parameter check — leaves every array
allocated before the call unchanged. -/
theorem fitTraceCore_no_mutation (s : Store) {N1 p N2 m : ℕ}
    (X : Mtx N1 p) (Y : Mtx N2 m) (g : ℤ)
    (WeighF : (k : ℕ) → Matrix (Fin k) (Fin k) ℚ) (qnF : ℕ → ℚ)
    (invF : (k : ℕ) → Matrix (Fin k) (Fin k) ℚ)
    (a : ℕ) (ha : a < s.next) :
    ((fitTraceCore s X Y g WeighF qnF invF).1).mem a = s.mem a := by
  unfold fitTraceCore
  by_cases hN : N1 = N2
  · rw [dif_pos hN]
    by_cases hg : g < 1 ∨ ((min N1 p : ℕ) : ℤ) < g
    · rw [if_pos hg]
    · rw [if_neg hg]
      exact mem_fitChain s _ _ _ _ a ha
  · rw [dif_neg hN]

/-- C9: fitting, whether it succeeds or fails, never mutates the caller's
`X` or `Y`: every array allocated before the call (in particular the two
calibration arrays) holds exactly the same value afterwards — centering
and every other step allocate fresh arrays, and the single in-place update
(the normalisation of `Q`) hits an array allocated inside the call. -/
theorem C9_no_input_mutation (s : Store) (aX aY : ℕ) (g : ℤ)
    (WeighF : (k : ℕ) → Matrix (Fin k) (Fin k) ℚ) (qnF : ℕ → ℚ)
    (invF : (k : ℕ) → Matrix (Fin k) (Fin k) ℚ)
    (a : ℕ) (ha : a < s.next) :
    ((fitTrace s aX aY g WeighF qnF invF).1).mem a = s.mem a := by
  unfold fitTrace
  rcases hX : s.mem aX with ⟨n, v⟩ | ⟨N1, p, X⟩ <;>
    rcases hY : s.mem aY with ⟨n2, v2⟩ | ⟨N2, m, Y⟩
  · rfl
  · rfl
  · rfl
  · exact fitTraceCore_no_mutation s X Y g WeighF qnF invF a ha

/-- Witness for C9: on the concrete store holding `X0` at address 0 and
`Y0` at address 1, a successful fit (`g = 2`) leaves both calibration
arrays unchanged. -/
theorem C9_no_input_mutation_witness :
    ((fitTrace store0 0 1 2 weighTriv qnTriv invTriv).1).mem 0
        = store0.mem 0 ∧
    ((fitTrace store0 0 1 2 weighTriv qnTriv invTriv).1).mem 1
        = store0.mem 1 :=
  ⟨C9_no_input_mutation store0 0 1 2 weighTriv qnTriv invTriv 0 (by decide),
   C9_no_input_mutation store0 0 1 2 weighTriv qnTriv invTriv 1 (by decide)⟩

/-- Counterexample to C3 as literally stated: for the empty calibration
pair (0 rows, so matching row counts) `max_rank = 0`, and
`fit(X, Y, max_rank)` fails rather than succeeding. -/
theorem C3_component_bounds_counterexample :
    exOk (fit (0 : Mtx 0 2) (0 : Mtx 0 1) ((min 0 2 : ℕ) : ℤ)
      (weighTriv 2) qnTriv invTriv) = false := by decide

/-- Witness for C3 at the concrete pair `X0`, `Y0` (3 × 2, `max_rank = 2`):
`g = 0` and `g = 3` fail, `g = 2` succeeds. -/
theorem C3_component_bounds_witness :
    fit X0 Y0 0 (weighTriv 2) qnTriv invTriv
        = .error (.paramError badComponentsMsg) ∧
    fit X0 Y0 3 (weighTriv 2) qnTriv invTriv
        = .error (.paramError badComponentsMsg) ∧
    exOk (fit X0 Y0 2 (weighTriv 2) qnTriv invTriv) = true := by
  refine ⟨?_, ?_, ?_⟩
  · exact (C3_component_bounds X0 Y0 (weighTriv 2) qnTriv invTriv).1 0
      (by decide)
  · exact (C3_component_bounds X0 Y0 (weighTriv 2) qnTriv invTriv).1 3
      (by decide)
  · exact (C3_component_bounds X0 Y0 (weighTriv 2) qnTriv invTriv).2
      (by decide)

end PLS_SB
